import Mathlib

/-!
Shallow embedding of the camera stop-resolution layer of
`src/javascript/components/Camera.tsx`: padding normalization, default-stop
computation, override merging (`buildNativeStop`), the `setCamera` dispatch
loop, and the imperative helpers (`fitBounds`, `flyTo`, `moveTo`, `zoomTo`).

Modelling conventions:
- JS `number` fields are modelled as `Int`; the merged code never performs
  arithmetic on them (they are only copied and defaulted), so the carrier is
  irrelevant to the merge semantics.
- A GeoJSON `Position` is a coordinate array, modelled as `List Int`.
- Optional JS fields/`undefined` are `Option`.
- `JSON.stringify` applied to the distinct shapes appearing in the source
  (a raw position array, a GeoJSON point from `geoUtils.makePoint`, a raw
  `bounds` object, a GeoJSON feature from `geoUtils.makeLatLngBounds`) is
  injective across those shapes, so a serialized string field is modelled as
  a sum type carrying the serialized value itself.
- `geoUtils.makePoint` / `geoUtils.makeLatLngBounds` are external
  collaborators; they are modelled as constructors of the serialized shapes.
-/

set_option autoImplicit false

namespace Maps

/-- A GeoJSON position: `[longitude, latitude]` (a JS number array). -/
abbrev Position := List Int

/-- The GeoJSON point built by `geoUtils.makePoint(coordinates)`. -/
structure GeoPoint where
  coordinates : Position
  deriving DecidableEq, Repr

/-- The GeoJSON feature built by `geoUtils.makeLatLngBounds(ne, sw)`. -/
structure GeoLatLngBounds where
  ne : Position
  sw : Position
  deriving DecidableEq, Repr

/-- External collaborator `geoUtils.makePoint`. -/
def makePoint (coordinates : Position) : GeoPoint :=
  { coordinates := coordinates }

/-- External collaborator `geoUtils.makeLatLngBounds`. -/
def makeLatLngBounds (ne sw : Position) : GeoLatLngBounds :=
  { ne := ne, sw := sw }

/-- `CameraPadding` from the source: all four sides are required fields. -/
structure CameraPadding where
  paddingLeft : Int
  paddingRight : Int
  paddingTop : Int
  paddingBottom : Int
  deriving DecidableEq, Repr

/-- `CameraBoundsWithPadding` from the source. The TS type requires `ne`/`sw`,
but `buildNativeStop` re-checks `stop.bounds.ne && stop.bounds.sw` at runtime
(line 280), so the corners are modelled as optional to capture exactly the
behaviour that runtime check decides. The per-side paddings come from
`Partial<CameraPadding>` and are optional in the TS type as well. -/
structure CameraBoundsWithPadding where
  ne : Option Position := none
  sw : Option Position := none
  paddingLeft : Option Int := none
  paddingRight : Option Int := none
  paddingTop : Option Int := none
  paddingBottom : Option Int := none
  deriving DecidableEq, Repr

/-- `CameraAnimationMode` is a string union in `types/Camera`; the source
compares it against the string constants of `CameraModes`. -/
abbrev CameraAnimationMode := String

/-- `CameraModes` table from the source (lines 44-50). -/
def CameraModes.Flight : CameraAnimationMode := "flyTo"

def CameraModes.Ease : CameraAnimationMode := "easeTo"

def CameraModes.Linear : CameraAnimationMode := "linearTo"

def CameraModes.Move : CameraAnimationMode := "moveTo"

def CameraModes.None : CameraAnimationMode := "none"

/-- `NativeAnimationMode` union from the source (line 146). -/
inductive NativeAnimationMode where
  | flight
  | ease
  | linear
  | none
  | move
  deriving DecidableEq, Repr

/-- Modelled from the spec: the constants `NativeModules.MGLModule.CameraModes`
live in the native module, outside this repository's source tree; the spec's
animation-mode mapping table (flight→"flight", ease→"ease", linear→"linear",
move→"move") fixes their renderer-level token values. -/
def NativeCameraModes.Flight : NativeAnimationMode := NativeAnimationMode.flight

/-- Modelled from the spec: see `NativeCameraModes.Flight`. -/
def NativeCameraModes.Ease : NativeAnimationMode := NativeAnimationMode.ease

/-- Modelled from the spec: see `NativeCameraModes.Flight`. -/
def NativeCameraModes.Linear : NativeAnimationMode := NativeAnimationMode.linear

/-- Modelled from the spec: see `NativeCameraModes.Flight`. -/
def NativeCameraModes.Move : NativeAnimationMode := NativeAnimationMode.move

/-- `nativeAnimationMode` from the source (lines 21-40): a `switch` on the
string intent, with a `default` branch covering `undefined` and any
unrecognized value. -/
def nativeAnimationMode (mode : Option CameraAnimationMode) : NativeAnimationMode :=
  match mode with
  | Option.some m =>
    if m = CameraModes.Flight then NativeCameraModes.Flight
    else if m = CameraModes.Ease then NativeCameraModes.Ease
    else if m = CameraModes.Linear then NativeCameraModes.Linear
    else if m = CameraModes.Move then NativeCameraModes.Move
    else if m = CameraModes.None then NativeCameraModes.Move
    else NativeCameraModes.Ease
  | Option.none => NativeCameraModes.Ease

/-- `CameraStop` from the source (lines 76-96): every field optional. The
`type` discriminant carries no data and is dropped. -/
structure CameraStop where
  centerCoordinate : Option Position := none
  bounds : Option CameraBoundsWithPadding := none
  heading : Option Int := none
  pitch : Option Int := none
  zoomLevel : Option Int := none
  padding : Option CameraPadding := none
  animationDuration : Option Int := none
  animationMode : Option CameraAnimationMode := none
  deriving DecidableEq, Repr

/-- The serialized string stored in `NativeCameraStop.centerCoordinate`:
either `JSON.stringify(position)` (default-stop path, line 235) or
`JSON.stringify(geoUtils.makePoint(position))` (merge path, line 275). -/
inductive SerializedCenter where
  | rawPosition (p : Option Position)
  | point (p : GeoPoint)
  deriving DecidableEq, Repr

/-- The serialized string stored in `NativeCameraStop.bounds`: either
`JSON.stringify(bounds)` of the raw bounds object (default-stop path,
line 236) or `JSON.stringify(geoUtils.makeLatLngBounds(ne, sw))` (merge
path, line 282). -/
inductive SerializedBounds where
  | rawBounds (b : Option CameraBoundsWithPadding)
  | latLngBounds (b : GeoLatLngBounds)
  deriving DecidableEq, Repr

/-- `NativeCameraStop` from the source (lines 158-170): every field optional. -/
structure NativeCameraStop where
  centerCoordinate : Option SerializedCenter := none
  bounds : Option SerializedBounds := none
  heading : Option Int := none
  pitch : Option Int := none
  zoom : Option Int := none
  paddingLeft : Option Int := none
  paddingRight : Option Int := none
  paddingTop : Option Int := none
  paddingBottom : Option Int := none
  duration : Option Int := none
  mode : Option NativeAnimationMode := none
  deriving DecidableEq, Repr

/-- `nativeDefaultStop` from the source (lines 230-248): `null` when
`defaultSettings` is absent; otherwise a stop with every scalar field
defaulted (`?? 0`, `?? 11`, `?? 2000`, mode via `nativeAnimationMode`).
`JSON.stringify(undefined)` is `undefined`, which the `rawPosition` /
`rawBounds` payloads carry as `none`. -/
def nativeDefaultStop (defaultSettings : Option CameraStop) : Option NativeCameraStop :=
  match defaultSettings with
  | Option.none => none
  | Option.some ds =>
    some
      { centerCoordinate :=
          match ds.centerCoordinate with
          | Option.some p => some (SerializedCenter.rawPosition (some p))
          | Option.none => none
        bounds :=
          match ds.bounds with
          | Option.some b => some (SerializedBounds.rawBounds (some b))
          | Option.none => none
        heading := some (ds.heading.getD 0)
        pitch := some (ds.pitch.getD 0)
        zoom := some (ds.zoomLevel.getD 11)
        paddingTop := some ((ds.padding.map CameraPadding.paddingTop).getD 0)
        paddingBottom := some ((ds.padding.map CameraPadding.paddingBottom).getD 0)
        paddingLeft := some ((ds.padding.map CameraPadding.paddingLeft).getD 0)
        paddingRight := some ((ds.padding.map CameraPadding.paddingRight).getD 0)
        duration := some (ds.animationDuration.getD 2000)
        mode := some (nativeAnimationMode ds.animationMode) }

/-- The spread `{ ...nativeDefaultStop }` at line 264: spreading `null`
yields the empty object (every field `undefined`). -/
def spreadDefault (d : Option NativeCameraStop) : NativeCameraStop :=
  match d with
  | Option.none => {}
  | Option.some n => n

/-- The field-by-field merge in the body of `buildNativeStop`
(lines 264-294). Each `NativeCameraStop` field is written at most once, so
the sequence of conditional mutations is equivalent to this single record:
pitch/heading/zoom/mode/duration overwrite the baseline when present in the
override (lines 266-272); the center is serialized when present (line 274);
the bounds are serialized only when both corners are present (line 280); the
four paddings are written unconditionally as
`stop.padding?.side ?? stop.bounds?.side ?? 0` (lines 285-292). -/
def mergeStop (n : NativeCameraStop) (stop : CameraStop) : NativeCameraStop :=
  { centerCoordinate :=
      match stop.centerCoordinate with
      | Option.some c => some (SerializedCenter.point (makePoint c))
      | Option.none => n.centerCoordinate
    bounds :=
      match stop.bounds with
      | Option.some b =>
        match b.ne, b.sw with
        | Option.some ne, Option.some sw =>
          some (SerializedBounds.latLngBounds (makeLatLngBounds ne sw))
        | _, _ => n.bounds
      | Option.none => n.bounds
    heading :=
      match stop.heading with
      | Option.some h => some h
      | Option.none => n.heading
    pitch :=
      match stop.pitch with
      | Option.some p => some p
      | Option.none => n.pitch
    zoom :=
      match stop.zoomLevel with
      | Option.some z => some z
      | Option.none => n.zoom
    paddingLeft :=
      some
        (match stop.padding with
         | Option.some p => p.paddingLeft
         | Option.none =>
           match stop.bounds with
           | Option.some b => b.paddingLeft.getD 0
           | Option.none => 0)
    paddingRight :=
      some
        (match stop.padding with
         | Option.some p => p.paddingRight
         | Option.none =>
           match stop.bounds with
           | Option.some b => b.paddingRight.getD 0
           | Option.none => 0)
    paddingTop :=
      some
        (match stop.padding with
         | Option.some p => p.paddingTop
         | Option.none =>
           match stop.bounds with
           | Option.some b => b.paddingTop.getD 0
           | Option.none => 0)
    paddingBottom :=
      some
        (match stop.padding with
         | Option.some p => p.paddingBottom
         | Option.none =>
           match stop.bounds with
           | Option.some b => b.paddingBottom.getD 0
           | Option.none => 0)
    duration :=
      match stop.animationDuration with
      | Option.some d => some d
      | Option.none => n.duration
    mode :=
      match stop.animationMode with
      | Option.some m => some (nativeAnimationMode (some m))
      | Option.none => n.mode }

/-- `buildNativeStop` from the source (lines 250-297). `followUserLocation`
is the component's follow flag (`props.followUserLocation` truthy);
`ignoreFollowUserLocation` defaults to `false` at every call site that omits
it. Returns `none` ("suppressed") when follow mode owns the camera. -/
def buildNativeStop (followUserLocation : Bool) (defaultStop : Option NativeCameraStop)
    (stop : CameraStop) (ignoreFollowUserLocation : Bool) : Option NativeCameraStop :=
  if followUserLocation && !ignoreFollowUserLocation then none
  else some (mergeStop (spreadDefault defaultStop) stop)

/-- `CameraStop | CameraStops` union accepted by `setCamera` (line 332),
after the discriminant inference at lines 333-341 (a bare object with a
`stops` field is a `CameraStops`, otherwise a `CameraStop`). -/
inductive SetCameraConfig where
  | single (stop : CameraStop)
  | stopList (stops : List CameraStop)
  deriving DecidableEq, Repr

/-- One `camera.current.setNativeProps` call crossing the rendering-engine
boundary: either `{ stop: nativeStop }` (single-stop branch, line 357) or
`{ stop: { stops: nativeStops } }` (list branch, lines 350-352). -/
inductive Dispatch where
  | stop (s : NativeCameraStop)
  | stops (ss : List NativeCameraStop)
  deriving DecidableEq, Repr

/-- The `for (const _stop of config.stops)` loop of `_setCamera`
(lines 344-353): each iteration resets `_nativeStops` to `[]`, resolves the
element with `ignoreFollowUserLocation` defaulted to `false`, appends the
resolved stop when non-null, and then calls `setNativeProps` unconditionally
with the (possibly empty) list. -/
def dispatchStops (followUserLocation : Bool) (defaultStop : Option NativeCameraStop) :
    List CameraStop → List Dispatch
  | [] => []
  | s :: rest =>
    let nativeStops : List NativeCameraStop := []
    let nativeStops :=
      match buildNativeStop followUserLocation defaultStop s false with
      | Option.some n => nativeStops ++ [n]
      | Option.none => nativeStops
    Dispatch.stops nativeStops :: dispatchStops followUserLocation defaultStop rest

/-- `_setCamera` from the source (lines 332-360), returning the ordered list
of `setNativeProps` payloads it sends to the boundary. -/
def _setCamera (followUserLocation : Bool) (defaultStop : Option NativeCameraStop) :
    SetCameraConfig → List Dispatch
  | SetCameraConfig.stopList ss => dispatchStops followUserLocation defaultStop ss
  | SetCameraConfig.single s =>
    match buildNativeStop followUserLocation defaultStop s false with
    | Option.some n => [Dispatch.stop n]
    | Option.none => []

/-- `paddingConfig` argument of `fitBounds`: a JS `number | number[]`. -/
inductive PaddingConfig where
  | num (n : Int)
  | arr (ns : List Int)
  deriving DecidableEq, Repr

/-- The padding normalization inside `_fitBounds` (lines 369-399): start
from all-zero, overwrite for a 2-element array (`[vertical, horizontal]`),
a 4-element array (`[top, right, bottom, left]`), or a number; any other
array length keeps the all-zero initial value. -/
def fitBoundsPadding (paddingConfig : PaddingConfig) : CameraPadding :=
  match paddingConfig with
  | PaddingConfig.arr ns =>
    if ns.length = 2 then
      { paddingTop := ns.getD 0 0
        paddingBottom := ns.getD 0 0
        paddingLeft := ns.getD 1 0
        paddingRight := ns.getD 1 0 }
    else if ns.length = 4 then
      { paddingTop := ns.getD 0 0
        paddingBottom := ns.getD 2 0
        paddingLeft := ns.getD 3 0
        paddingRight := ns.getD 1 0 }
    else
      { paddingTop := 0, paddingBottom := 0, paddingLeft := 0, paddingRight := 0 }
  | PaddingConfig.num n =>
    { paddingTop := n, paddingBottom := n, paddingLeft := n, paddingRight := n }

/-- The override stop `_fitBounds` passes to `setCamera` (lines 401-410). -/
def fitBoundsStop (ne sw : Position) (paddingConfig : Option PaddingConfig)
    (animationDuration : Option Int) : CameraStop :=
  { bounds := some { ne := some ne, sw := some sw }
    padding := some (fitBoundsPadding (paddingConfig.getD (PaddingConfig.num 0)))
    animationDuration := some (animationDuration.getD 0)
    animationMode := some CameraModes.Ease }

/-- `_fitBounds` from the source (lines 363-411); optional JS parameters are
`Option`s defaulted as in the source (`paddingConfig = 0`,
`animationDuration = 0`). -/
def _fitBounds (followUserLocation : Bool) (defaultStop : Option NativeCameraStop)
    (ne sw : Position) (paddingConfig : Option PaddingConfig)
    (animationDuration : Option Int) : List Dispatch :=
  _setCamera followUserLocation defaultStop
    (SetCameraConfig.single (fitBoundsStop ne sw paddingConfig animationDuration))

/-- The override stop `_flyTo` passes to `setCamera` (lines 418-422): only
the center coordinate and the duration (default 2000) are set. -/
def flyToStop (centerCoordinate : Position) (animationDuration : Option Int) : CameraStop :=
  { centerCoordinate := some centerCoordinate
    animationDuration := some (animationDuration.getD 2000) }

/-- `_flyTo` from the source (lines 414-423). -/
def _flyTo (followUserLocation : Bool) (defaultStop : Option NativeCameraStop)
    (centerCoordinate : Position) (animationDuration : Option Int) : List Dispatch :=
  _setCamera followUserLocation defaultStop
    (SetCameraConfig.single (flyToStop centerCoordinate animationDuration))

/-- The override stop `_moveTo` passes to `setCamera` (lines 430-435):
center, duration (default 0), and mode fixed to `'easeTo'`. -/
def moveToStop (centerCoordinate : Position) (animationDuration : Option Int) : CameraStop :=
  { centerCoordinate := some centerCoordinate
    animationDuration := some (animationDuration.getD 0)
    animationMode := some CameraModes.Ease }

/-- `_moveTo` from the source (lines 426-437). -/
def _moveTo (followUserLocation : Bool) (defaultStop : Option NativeCameraStop)
    (centerCoordinate : Position) (animationDuration : Option Int) : List Dispatch :=
  _setCamera followUserLocation defaultStop
    (SetCameraConfig.single (moveToStop centerCoordinate animationDuration))

/-- The override stop `_zoomTo` passes to `setCamera` (lines 443-448): zoom
level, duration (default 2000), and mode fixed to `'flyTo'`. -/
def zoomToStop (zoomLevel : Int) (animationDuration : Option Int) : CameraStop :=
  { zoomLevel := some zoomLevel
    animationDuration := some (animationDuration.getD 2000)
    animationMode := some CameraModes.Flight }

/-- `_zoomTo` from the source (lines 439-450). -/
def _zoomTo (followUserLocation : Bool) (defaultStop : Option NativeCameraStop)
    (zoomLevel : Int) (animationDuration : Option Int) : List Dispatch :=
  _setCamera followUserLocation defaultStop
    (SetCameraConfig.single (zoomToStop zoomLevel animationDuration))

/-- Specification-side description of the per-element dispatch of a stop
list: resolve the element independently (with `ignoreFollowUserLocation`
false) and send one `stops`-list payload for it — a singleton when the
element resolves, an empty list when it is suppressed. Used to characterize
the imperative loop `dispatchStops`. -/
def resolvedDispatch (followUserLocation : Bool) (defaultStop : Option NativeCameraStop)
    (s : CameraStop) : Dispatch :=
  match buildNativeStop followUserLocation defaultStop s false with
  | Option.some n => Dispatch.stops [n]
  | Option.none => Dispatch.stops []

/-! ## Theorems -/

/-- When follow mode is off and `ignoreFollowUserLocation` is false,
`buildNativeStop` is the merge of the override onto the spread default. -/
theorem buildNativeStop_not_followed (d : Option NativeCameraStop) (stop : CameraStop) :
    buildNativeStop false d stop false = some (mergeStop (spreadDefault d) stop) := rfl

/-- C1 (counterexample): with no caller-supplied default configuration
(`defaultSettings` absent, so `nativeDefaultStop` is `null`) and an override
that sets nothing, resolution is not suppressed, yet the resolved heading is
`undefined` — not the built-in fallback `0` the claim promises. -/
theorem C1_counterexample :
    (buildNativeStop false (nativeDefaultStop none) {} false).isSome = true ∧
    (buildNativeStop false (nativeDefaultStop none) {} false).map NativeCameraStop.heading =
      some none ∧
    (buildNativeStop false (nativeDefaultStop none) {} false).map NativeCameraStop.heading ≠
      some (some 0) := by
  refine ⟨rfl, rfl, ?_⟩
  decide

/-- C1 (amended): when a default configuration is supplied, every
non-suppressed resolution yields concrete heading, pitch, zoom, four
paddings, duration and mode; the built-in fallbacks heading 0, pitch 0,
zoom 11, duration 2000, mode "ease" show up for fields absent from both the
override and the default configuration. When no default configuration is
supplied, only the four padding sides are guaranteed concrete (they resolve
to 0); heading, pitch, zoom, duration and mode absent from the override stay
unspecified. -/
theorem C1_resolved_fields :
    (∀ (ds : CameraStop) (stop : CameraStop) (n : NativeCameraStop),
       buildNativeStop false (nativeDefaultStop (some ds)) stop false = some n →
       n.heading.isSome = true ∧ n.pitch.isSome = true ∧ n.zoom.isSome = true ∧
       n.paddingTop.isSome = true ∧ n.paddingRight.isSome = true ∧
       n.paddingBottom.isSome = true ∧ n.paddingLeft.isSome = true ∧
       n.duration.isSome = true ∧ n.mode.isSome = true) ∧
    (∀ (stop : CameraStop) (n : NativeCameraStop),
       stop.heading = none → stop.pitch = none → stop.zoomLevel = none →
       stop.animationDuration = none → stop.animationMode = none →
       buildNativeStop false (nativeDefaultStop (some {})) stop false = some n →
       n.heading = some 0 ∧ n.pitch = some 0 ∧ n.zoom = some 11 ∧
       n.duration = some 2000 ∧ n.mode = some NativeAnimationMode.ease) ∧
    (∀ (stop : CameraStop) (n : NativeCameraStop),
       stop.heading = none → stop.pitch = none → stop.zoomLevel = none →
       stop.animationDuration = none → stop.animationMode = none →
       buildNativeStop false (nativeDefaultStop none) stop false = some n →
       n.heading = none ∧ n.pitch = none ∧ n.zoom = none ∧
       n.duration = none ∧ n.mode = none ∧
       n.paddingTop.isSome = true ∧ n.paddingRight.isSome = true ∧
       n.paddingBottom.isSome = true ∧ n.paddingLeft.isSome = true) := by
  refine ⟨?_, ?_, ?_⟩
  · intro ds stop n h
    rw [buildNativeStop_not_followed] at h
    obtain rfl := Option.some.inj h
    refine ⟨?_, ?_, ?_, ?_, ?_, ?_, ?_, ?_, ?_⟩ <;>
      simp only [mergeStop, nativeDefaultStop, spreadDefault] <;>
      first
        | rfl
        | (cases stop.heading <;> rfl)
        | (cases stop.pitch <;> rfl)
        | (cases stop.zoomLevel <;> rfl)
        | (cases stop.animationDuration <;> rfl)
        | (cases stop.animationMode <;> rfl)
  · intro stop n hh hp hz hd hm h
    rw [buildNativeStop_not_followed] at h
    obtain rfl := Option.some.inj h
    refine ⟨?_, ?_, ?_, ?_, ?_⟩ <;>
      simp [mergeStop, nativeDefaultStop, spreadDefault, hh, hp, hz, hd, hm,
        nativeAnimationMode, NativeCameraModes.Ease]
  · intro stop n hh hp hz hd hm h
    rw [buildNativeStop_not_followed] at h
    obtain rfl := Option.some.inj h
    refine ⟨?_, ?_, ?_, ?_, ?_, ?_, ?_, ?_, ?_⟩ <;>
      simp [mergeStop, nativeDefaultStop, spreadDefault, hh, hp, hz, hd, hm]

/-- C1 (witness): the fallback part of `C1_resolved_fields` instantiated at
the empty override against the empty default configuration. -/
theorem C1_witness :
    ((buildNativeStop false (nativeDefaultStop (some {})) {} false).getD {}).heading = some 0 ∧
    ((buildNativeStop false (nativeDefaultStop (some {})) {} false).getD {}).pitch = some 0 ∧
    ((buildNativeStop false (nativeDefaultStop (some {})) {} false).getD {}).zoom = some 11 ∧
    ((buildNativeStop false (nativeDefaultStop (some {})) {} false).getD {}).duration =
      some 2000 ∧
    ((buildNativeStop false (nativeDefaultStop (some {})) {} false).getD {}).mode =
      some NativeAnimationMode.ease :=
  C1_resolved_fields.2.1 {} ((buildNativeStop false (nativeDefaultStop (some {})) {} false).getD {})
    rfl rfl rfl rfl rfl rfl

/-- C2 (counterexample): the default configuration carries padding
`left 5, right 6, top 7, bottom 8`; resolving an override that sets only
`zoomLevel` yields `paddingTop = 0`, not the default stop's `7` — the four
padding sides are not preserved from the default stop. -/
theorem C2_counterexample :
    (nativeDefaultStop (some { padding := some ⟨5, 6, 7, 8⟩ })).map NativeCameraStop.paddingTop =
      some (some 7) ∧
    (buildNativeStop false (nativeDefaultStop (some { padding := some ⟨5, 6, 7, 8⟩ }))
        { zoomLevel := some 3 } false).map NativeCameraStop.paddingTop = some (some 0) ∧
    some (some (0 : Int)) ≠ some (some (7 : Int)) := by
  refine ⟨rfl, rfl, ?_⟩
  decide

/-- C2 (amended): resolving an override that sets only `zoomLevel` preserves
the default stop's heading, pitch, duration, mode, center and bounds, and
takes the override's zoom; the four padding sides are NOT preserved — they
are rewritten unconditionally and, with no padding and no bounds on the
override, resolve to 0. -/
theorem C2_zoom_only (d : Option NativeCameraStop) (z : Int) :
    buildNativeStop false d { zoomLevel := some z } false =
      some { spreadDefault d with
             zoom := some z
             paddingTop := some 0
             paddingRight := some 0
             paddingBottom := some 0
             paddingLeft := some 0 } := rfl

/-- C3: while follow mode is active and not ignored, resolution is
suppressed (`null`) and a single-stop `setCamera` dispatches nothing,
whatever the override contains. -/
theorem C3_follow_suppresses (d : Option NativeCameraStop) (stop : CameraStop) :
    buildNativeStop true d stop false = none ∧
    _setCamera true d (SetCameraConfig.single stop) = [] := ⟨rfl, rfl⟩

/-- C4 (counterexample): with follow mode active, the single element of
`setCamera({stops: [{}]})` is suppressed, yet one `setNativeProps` dispatch
still crosses the boundary for it — carrying an empty `stops` list — so a
suppressed element does not produce "no dispatch at all". -/
theorem C4_counterexample :
    buildNativeStop true none {} false = none ∧
    _setCamera true none (SetCameraConfig.stopList [{}]) = [Dispatch.stops []] ∧
    [Dispatch.stops []] ≠ ([] : List Dispatch) := by
  refine ⟨rfl, rfl, ?_⟩
  decide

/-- C4 (amended): each element of a stop list is resolved independently with
`ignoreFollowUserLocation = false`, and exactly one dispatch crosses the
boundary per element, in list order: a singleton `stops` payload for a
non-suppressed element, an empty `stops` payload for a suppressed one. -/
theorem C4_list_dispatch (follow : Bool) (d : Option NativeCameraStop)
    (ss : List CameraStop) :
    _setCamera follow d (SetCameraConfig.stopList ss) = ss.map (resolvedDispatch follow d) := by
  induction ss with
  | nil => rfl
  | cons s rest ih =>
    show Dispatch.stops _ :: dispatchStops follow d rest = _ :: rest.map (resolvedDispatch follow d)
    rw [show dispatchStops follow d rest = _setCamera follow d (SetCameraConfig.stopList rest)
      from rfl, ih]
    unfold resolvedDispatch
    cases buildNativeStop follow d s false <;> rfl

/-- C5 (counterexample): an override supplying both a center coordinate and
complete bounds resolves to a stop carrying BOTH the serialized point and the
serialized box (the default had no bounds, so the box came from the
override); the center is written before — not after — the bounds-derived
field, and the box is not discarded in this layer. -/
theorem C5_counterexample :
    (buildNativeStop false none
        { centerCoordinate := some [1, 2],
          bounds := some { ne := some [3, 4], sw := some [5, 6] } } false).map
      NativeCameraStop.centerCoordinate =
      some (some (SerializedCenter.point (makePoint [1, 2]))) ∧
    (buildNativeStop false none
        { centerCoordinate := some [1, 2],
          bounds := some { ne := some [3, 4], sw := some [5, 6] } } false).map
      NativeCameraStop.bounds =
      some (some (SerializedBounds.latLngBounds (makeLatLngBounds [3, 4] [5, 6]))) ∧
    some (some (SerializedBounds.latLngBounds (makeLatLngBounds [3, 4] [5, 6]))) ≠
      (some none : Option (Option SerializedBounds)) := by
  refine ⟨rfl, rfl, ?_⟩
  decide

/-- C5 (amended): when the override supplies both a center coordinate and
complete bounds, both are serialized onto the resolved stop — the point via
the canonical point transform and the box via the canonical bounds
transform — and, with no standalone padding object on the override, padding
resolution reads the bounds-level per-side values. -/
theorem C5_center_and_bounds (d : Option NativeCameraStop) (c pne psw : Position)
    (b : CameraBoundsWithPadding) (hne : b.ne = some pne) (hsw : b.sw = some psw)
    (n : NativeCameraStop)
    (h : buildNativeStop false d { centerCoordinate := some c, bounds := some b } false = some n) :
    n.centerCoordinate = some (SerializedCenter.point (makePoint c)) ∧
    n.bounds = some (SerializedBounds.latLngBounds (makeLatLngBounds pne psw)) ∧
    n.paddingTop = some (b.paddingTop.getD 0) ∧
    n.paddingRight = some (b.paddingRight.getD 0) ∧
    n.paddingBottom = some (b.paddingBottom.getD 0) ∧
    n.paddingLeft = some (b.paddingLeft.getD 0) := by
  rw [buildNativeStop_not_followed] at h
  obtain rfl := Option.some.inj h
  refine ⟨rfl, ?_, rfl, rfl, rfl, rfl⟩
  simp only [mergeStop, hne, hsw]

/-- C5 (witness): `C5_center_and_bounds` at center `[1,2]` and bounds
`ne [3,4], sw [5,6]` carrying `paddingTop 9`. -/
theorem C5_witness :
    ((buildNativeStop false none
        { centerCoordinate := some [1, 2],
          bounds := some { ne := some [3, 4], sw := some [5, 6], paddingTop := some 9 } }
        false).getD {}).centerCoordinate =
      some (SerializedCenter.point (makePoint [1, 2])) ∧
    ((buildNativeStop false none
        { centerCoordinate := some [1, 2],
          bounds := some { ne := some [3, 4], sw := some [5, 6], paddingTop := some 9 } }
        false).getD {}).bounds =
      some (SerializedBounds.latLngBounds (makeLatLngBounds [3, 4] [5, 6])) ∧
    ((buildNativeStop false none
        { centerCoordinate := some [1, 2],
          bounds := some { ne := some [3, 4], sw := some [5, 6], paddingTop := some 9 } }
        false).getD {}).paddingTop = some 9 ∧
    ((buildNativeStop false none
        { centerCoordinate := some [1, 2],
          bounds := some { ne := some [3, 4], sw := some [5, 6], paddingTop := some 9 } }
        false).getD {}).paddingRight = some 0 ∧
    ((buildNativeStop false none
        { centerCoordinate := some [1, 2],
          bounds := some { ne := some [3, 4], sw := some [5, 6], paddingTop := some 9 } }
        false).getD {}).paddingBottom = some 0 ∧
    ((buildNativeStop false none
        { centerCoordinate := some [1, 2],
          bounds := some { ne := some [3, 4], sw := some [5, 6], paddingTop := some 9 } }
        false).getD {}).paddingLeft = some 0 :=
  C5_center_and_bounds none [1, 2] [3, 4] [5, 6]
    { ne := some [3, 4], sw := some [5, 6], paddingTop := some 9 } rfl rfl
    ((buildNativeStop false none
        { centerCoordinate := some [1, 2],
          bounds := some { ne := some [3, 4], sw := some [5, 6], paddingTop := some 9 } }
        false).getD {}) rfl

/-- C6: whenever the override carries a standalone padding object, all four
resolved padding sides come wholesale from that object, regardless of any
per-side padding attached to the override's bounds — no per-side mix of the
two sources. -/
theorem C6_padding_wholesale (d : Option NativeCameraStop) (stop : CameraStop)
    (p : CameraPadding) (hp : stop.padding = some p) (n : NativeCameraStop)
    (h : buildNativeStop false d stop false = some n) :
    n.paddingTop = some p.paddingTop ∧ n.paddingRight = some p.paddingRight ∧
    n.paddingBottom = some p.paddingBottom ∧ n.paddingLeft = some p.paddingLeft := by
  rw [buildNativeStop_not_followed] at h
  obtain rfl := Option.some.inj h
  refine ⟨?_, ?_, ?_, ?_⟩ <;> simp [mergeStop, hp]

/-- C6 (witness): `C6_padding_wholesale` where the override carries padding
`left 1, right 2, top 3, bottom 4` and bounds-attached `paddingTop 9`: the
resolved sides are those of the standalone object. -/
theorem C6_witness :
    ((buildNativeStop false none
        { bounds := some { ne := some [3, 4], sw := some [5, 6], paddingTop := some 9 },
          padding := some ⟨1, 2, 3, 4⟩ } false).getD {}).paddingTop = some 3 ∧
    ((buildNativeStop false none
        { bounds := some { ne := some [3, 4], sw := some [5, 6], paddingTop := some 9 },
          padding := some ⟨1, 2, 3, 4⟩ } false).getD {}).paddingRight = some 2 ∧
    ((buildNativeStop false none
        { bounds := some { ne := some [3, 4], sw := some [5, 6], paddingTop := some 9 },
          padding := some ⟨1, 2, 3, 4⟩ } false).getD {}).paddingBottom = some 4 ∧
    ((buildNativeStop false none
        { bounds := some { ne := some [3, 4], sw := some [5, 6], paddingTop := some 9 },
          padding := some ⟨1, 2, 3, 4⟩ } false).getD {}).paddingLeft = some 1 :=
  C6_padding_wholesale none
    { bounds := some { ne := some [3, 4], sw := some [5, 6], paddingTop := some 9 },
      padding := some ⟨1, 2, 3, 4⟩ } ⟨1, 2, 3, 4⟩ rfl
    ((buildNativeStop false none
        { bounds := some { ne := some [3, 4], sw := some [5, 6], paddingTop := some 9 },
          padding := some ⟨1, 2, 3, 4⟩ } false).getD {}) rfl

/-- C7: `fitBounds` padding normalization — a scalar fills all four sides; a
2-element array is `[vertical, horizontal]`; a 4-element array is
`[top, right, bottom, left]`; an absent config (defaulted to the scalar `0`)
gives all sides 0; an array of any other length degenerates to all sides 0
without an error. -/
theorem C7_fitBounds_padding :
    (∀ n : Int, fitBoundsPadding (PaddingConfig.num n) =
      { paddingTop := n, paddingBottom := n, paddingLeft := n, paddingRight := n }) ∧
    (∀ v h : Int, fitBoundsPadding (PaddingConfig.arr [v, h]) =
      { paddingTop := v, paddingBottom := v, paddingLeft := h, paddingRight := h }) ∧
    (∀ a b c d : Int, fitBoundsPadding (PaddingConfig.arr [a, b, c, d]) =
      { paddingTop := a, paddingRight := b, paddingBottom := c, paddingLeft := d }) ∧
    (∀ ne sw : Position, (fitBoundsStop ne sw none none).padding =
      some { paddingTop := 0, paddingBottom := 0, paddingLeft := 0, paddingRight := 0 }) ∧
    (∀ ns : List Int, ns.length ≠ 2 → ns.length ≠ 4 →
      fitBoundsPadding (PaddingConfig.arr ns) =
        { paddingTop := 0, paddingBottom := 0, paddingLeft := 0, paddingRight := 0 }) := by
  refine ⟨fun n => rfl, fun v h => rfl, fun a b c d => rfl, fun ne sw => rfl, ?_⟩
  intro ns h2 h4
  simp [fitBoundsPadding, h2, h4]

/-- C7 (witness): the malformed-length clause of `C7_fitBounds_padding` at
the 3-element array `[1, 2, 3]`. -/
theorem C7_witness :
    fitBoundsPadding (PaddingConfig.arr [1, 2, 3]) =
      { paddingTop := 0, paddingBottom := 0, paddingLeft := 0, paddingRight := 0 } :=
  C7_fitBounds_padding.2.2.2.2 [1, 2, 3] (by decide) (by decide)

/-- C8: the animation-mode mapping is total and sends the flight intent to
"flight", ease to "ease", linear to "linear", move to "move", none to
"move", and any absent or unrecognized intent to "ease". -/
theorem C8_mode_mapping :
    nativeAnimationMode (some CameraModes.Flight) = NativeAnimationMode.flight ∧
    nativeAnimationMode (some CameraModes.Ease) = NativeAnimationMode.ease ∧
    nativeAnimationMode (some CameraModes.Linear) = NativeAnimationMode.linear ∧
    nativeAnimationMode (some CameraModes.Move) = NativeAnimationMode.move ∧
    nativeAnimationMode (some CameraModes.None) = NativeAnimationMode.move ∧
    nativeAnimationMode none = NativeAnimationMode.ease ∧
    (∀ m : CameraAnimationMode, m ≠ CameraModes.Flight → m ≠ CameraModes.Ease →
      m ≠ CameraModes.Linear → m ≠ CameraModes.Move → m ≠ CameraModes.None →
      nativeAnimationMode (some m) = NativeAnimationMode.ease) := by
  refine ⟨by decide, by decide, by decide, by decide, by decide, rfl, ?_⟩
  intro m h1 h2 h3 h4 h5
  simp [nativeAnimationMode, h1, h2, h3, h4, h5, NativeCameraModes.Ease]

/-- C8 (witness): the unrecognized-intent clause of `C8_mode_mapping` at the
string "bogus". -/
theorem C8_witness : nativeAnimationMode (some "bogus") = NativeAnimationMode.ease :=
  C8_mode_mapping.2.2.2.2.2.2 "bogus" (by decide) (by decide) (by decide) (by decide)
    (by decide)

/-- C9: `flyTo` builds an override with only the center coordinate and the
duration set (mode left unset), so its resolved mode is whatever the spread
default stop carries; `zoomTo` forces mode "flight" for every zoom level and
duration (the duration defaulting to 2000), so in particular `zoomTo(14)`
resolves to zoom 14, mode "flight", duration 2000. -/
theorem C9_flyTo_zoomTo :
    (∀ (c : Position) (dur : Option Int), flyToStop c dur =
      { centerCoordinate := some c, animationDuration := some (dur.getD 2000) }) ∧
    (∀ (d : Option NativeCameraStop) (c : Position) (dur : Option Int) (n : NativeCameraStop),
      buildNativeStop false d (flyToStop c dur) false = some n →
      n.mode = (spreadDefault d).mode) ∧
    (∀ (d : Option NativeCameraStop) (z : Int) (dur : Option Int) (n : NativeCameraStop),
      buildNativeStop false d (zoomToStop z dur) false = some n →
      n.zoom = some z ∧ n.mode = some NativeAnimationMode.flight ∧
      n.duration = some (dur.getD 2000)) := by
  refine ⟨fun c dur => rfl, ?_, ?_⟩
  · intro d c dur n h
    rw [buildNativeStop_not_followed] at h
    obtain rfl := Option.some.inj h
    rfl
  · intro d z dur n h
    rw [buildNativeStop_not_followed] at h
    obtain rfl := Option.some.inj h
    exact ⟨rfl, rfl, rfl⟩

/-- C9 (witness): the `zoomTo` clause of `C9_flyTo_zoomTo` with no default
configuration: `zoomTo(14)`'s resolved stop has zoom 14, mode "flight",
duration 2000. -/
theorem C9_witness :
    ((buildNativeStop false none (zoomToStop 14 none) false).getD {}).zoom = some 14 ∧
    ((buildNativeStop false none (zoomToStop 14 none) false).getD {}).mode =
      some NativeAnimationMode.flight ∧
    ((buildNativeStop false none (zoomToStop 14 none) false).getD {}).duration = some 2000 :=
  C9_flyTo_zoomTo.2.2 none 14 none
    ((buildNativeStop false none (zoomToStop 14 none) false).getD {}) rfl

/-- C10: when the override's bounds object is present but misses the `ne` or
the `sw` corner, the resolved bounds field keeps the spread default's value
(the partial bounds are not serialized), while with no standalone padding
object the per-side values attached to that partial bounds object still feed
padding resolution. -/
theorem C10_partial_bounds (d : Option NativeCameraStop) (b : CameraBoundsWithPadding)
    (hb : b.ne = none ∨ b.sw = none) (stop : CameraStop) (hbs : stop.bounds = some b)
    (hpad : stop.padding = none) (n : NativeCameraStop)
    (h : buildNativeStop false d stop false = some n) :
    n.bounds = (spreadDefault d).bounds ∧
    n.paddingTop = some (b.paddingTop.getD 0) ∧
    n.paddingRight = some (b.paddingRight.getD 0) ∧
    n.paddingBottom = some (b.paddingBottom.getD 0) ∧
    n.paddingLeft = some (b.paddingLeft.getD 0) := by
  rw [buildNativeStop_not_followed] at h
  obtain rfl := Option.some.inj h
  refine ⟨?_, ?_, ?_, ?_, ?_⟩ <;> simp only [mergeStop, hbs, hpad]
  rcases hb with h1 | h1
  · rw [h1]
  · rw [h1]
    cases b.ne <;> rfl

/-- C10 (witness): `C10_partial_bounds` at a bounds object missing `ne` but
carrying `sw [1,2]` and `paddingLeft 7`, with no default configuration. -/
theorem C10_witness :
    ((buildNativeStop false none
        { bounds := some { sw := some [1, 2], paddingLeft := some 7 } } false).getD {}).bounds =
      (spreadDefault none).bounds ∧
    ((buildNativeStop false none
        { bounds := some { sw := some [1, 2], paddingLeft := some 7 } } false).getD
          {}).paddingTop = some 0 ∧
    ((buildNativeStop false none
        { bounds := some { sw := some [1, 2], paddingLeft := some 7 } } false).getD
          {}).paddingRight = some 0 ∧
    ((buildNativeStop false none
        { bounds := some { sw := some [1, 2], paddingLeft := some 7 } } false).getD
          {}).paddingBottom = some 0 ∧
    ((buildNativeStop false none
        { bounds := some { sw := some [1, 2], paddingLeft := some 7 } } false).getD
          {}).paddingLeft = some 7 :=
  C10_partial_bounds none { sw := some [1, 2], paddingLeft := some 7 } (Or.inl rfl)
    { bounds := some { sw := some [1, 2], paddingLeft := some 7 } } rfl rfl
    ((buildNativeStop false none
        { bounds := some { sw := some [1, 2], paddingLeft := some 7 } } false).getD {}) rfl

end Maps
